import Mathlib

/-!
# Verification of the interview-service backend against its specification

Shallow embedding of the Python FastAPI/SQLAlchemy service
(`app/db/models.py`, `app/services/*.py`, `app/api/*.py`).

Modelling conventions:
* SQLAlchemy tables are Lean structures; the database session is an explicit
  `DB` record of row lists.  Generated integer primary keys are modelled by
  the `nextId` counter.
* The two pure join tables (`template_questions`, `interviewer_forms`) are
  modelled as the ordered id-list fields `question_ids` / `interviewer_ids`
  of the owning row, preserving insertion order exactly as SQLAlchemy's
  list-backed relationship collections do.
* `Feedback.phrases` is driven by the `feedback_id` foreign-key column on
  `predefined_phrases` (models.py lines 216 and 230): each phrase row points
  to at most one feedback.  Appending a phrase to a feedback's collection
  sets that foreign key; clearing the collection nulls it.
* Python `Float` columns are carried as `ℚ`; they are never computed with,
  only stored and (in the notes builder) rendered.  The f-string rendering
  of a float is abstracted as a parameter `fmt : ℚ → String`.
* `datetime` values are a plain record of calendar fields;
  `strftime("%Y-%m-%d %H:%M")` is embedded as zero-padded rendering.
* `HTTPException(status_code, detail)` is the `PyExn.http` constructor;
  handlers return `Except PyExn α` together with the resulting `DB`.
  Uncommitted session mutations are discarded when an exception escapes the
  handler (the request-scoped session is torn down without commit), so an
  error path returns the original `DB` unchanged.
* The HTTP transport of `httpx` is an uninterpreted function from requests
  to responses; the requests actually issued are returned as a trace list.
-/

/-- Calendar datetime (`sqlalchemy.DateTime` / Python `datetime`). -/
structure PyDateTime where
  year : Nat
  month : Nat
  day : Nat
  hour : Nat
  minute : Nat
deriving DecidableEq, Repr

/-- Lexicographic comparison of datetimes, as Python compares them. -/
def PyDateTime.le (a b : PyDateTime) : Bool :=
  if a.year ≠ b.year then a.year < b.year
  else if a.month ≠ b.month then a.month < b.month
  else if a.day ≠ b.day then a.day < b.day
  else if a.hour ≠ b.hour then a.hour < b.hour
  else a.minute ≤ b.minute

/-- Left-pad the decimal rendering of `n` with zeros to width `w`
(`strftime` zero padding). -/
def padZeros (w : Nat) (n : Nat) : String :=
  let s := toString n
  ⟨List.replicate (w - s.data.length) '0'⟩ ++ s

/-- `form.interview_date.strftime("%Y-%m-%d %H:%M")` (integrations.py:172). -/
def strftimeYmdHM (d : PyDateTime) : String :=
  padZeros 4 d.year ++ "-" ++ padZeros 2 d.month ++ "-" ++ padZeros 2 d.day
    ++ " " ++ padZeros 2 d.hour ++ ":" ++ padZeros 2 d.minute

/-- Python f-string rendering of an `Optional[str]` (`None` prints as "None"). -/
def renderOptStr : Option String → String
  | none => "None"
  | some s => s

/-- `questions` table row (models.py:67-91).  `templates` side of the
many-to-many lives on `ApplicationTemplate.question_ids`. -/
structure Question where
  id : Nat
  text : String
  weight : ℚ
  docs_reference : Option String
  priority : Int
  unit_id : Option Nat
  difficulty_id : Option Nat
  level_id : Option Nat
  group_id : Option Nat
deriving DecidableEq, Repr

/-- `application_templates` table row (models.py:93-108) together with its
side of the `template_questions` join table (models.py:9-14), kept in
insertion order. -/
structure ApplicationTemplate where
  id : Nat
  name : String
  description : Option String
  position : String
  question_ids : List Nat
deriving DecidableEq, Repr

/-- `interviewers` table row (models.py:124-138). -/
structure Interviewer where
  id : Nat
  name : String
  email : String
  position : Option String
deriving DecidableEq, Repr

/-- `interview_forms` table row (models.py:140-161) together with its side
of the `interviewer_forms` join table (models.py:17-22), in insertion
order. -/
structure InterviewForm where
  id : Nat
  candidate_id : String
  candidate_name : String
  position : String
  interview_date : PyDateTime
  template_id : Nat
  interviewer_ids : List Nat
deriving DecidableEq, Repr

/-- `scores` table row (models.py:163-183). -/
structure Score where
  id : Nat
  question_id : Nat
  value : ℚ
  comment : Option String
  interviewer_id : Nat
  interview_form_id : Nat
  evaluation_id : Option Nat
deriving DecidableEq, Repr

/-- `evaluations` table row (models.py:185-202). -/
structure Evaluation where
  id : Nat
  total_score : ℚ
  passed : Bool
  minimal_rate : ℚ
  interview_form_id : Nat
deriving DecidableEq, Repr

/-- `feedbacks` table row (models.py:204-219). -/
structure Feedback where
  id : Nat
  text : String
  interview_form_id : Nat
deriving DecidableEq, Repr

/-- `predefined_phrases` table row (models.py:221-236).  `feedback_id` is
the nullable foreign key that backs the `Feedback.phrases` collection. -/
structure PredefinedPhrase where
  id : Nat
  text : String
  category : Option String
  feedback_id : Option Nat
deriving DecidableEq, Repr

/-- The relational state touched by the embedded handlers. -/
structure DB where
  templates : List ApplicationTemplate
  questions : List Question
  interviewers : List Interviewer
  forms : List InterviewForm
  scores : List Score
  evaluations : List Evaluation
  feedbacks : List Feedback
  phrases : List PredefinedPhrase
  nextId : Nat
deriving DecidableEq, Repr

/-- The exceptions that can escape a handler: `HTTPException(status_code,
detail)` raised by the handlers themselves (remote `httpx` failures are
surfaced through the same type, mirroring the source), and a database
`IntegrityError` escaping an in-service `db.commit()` when a flush violates
a primary-key constraint — no handler catches it, so FastAPI surfaces it as
a plain HTTP 500. -/
inductive PyExn where
  | http (status_code : Nat) (detail : String)
  | integrity
deriving DecidableEq, Repr

/-- Starlette's `str(HTTPException)`: `"{status_code}: {detail}"`, which is
what `str(e)` produces inside the sync handler's except-block.  (The
`integrity` case never reaches that handler; its rendering is nominal.) -/
def strOfExn : PyExn → String
  | .http s d => toString s ++ ": " ++ d
  | .integrity => "IntegrityError"

/-- The rows of `db.phrases` currently attached to feedback `fid`
(the `Feedback.phrases` relationship collection, in table order). -/
def phrasesOf (db : DB) (fid : Nat) : List PredefinedPhrase :=
  db.phrases.filter (fun p => p.feedback_id == some fid)

/-- The `form.interviewers` relationship collection, in membership
(insertion) order. -/
def interviewersOf (db : DB) (form : InterviewForm) : List Interviewer :=
  form.interviewer_ids.filterMap (fun i => db.interviewers.find? (fun v => v.id == i))

/-- Python truthiness of an `Optional[int]` filter argument. -/
def truthyNat : Option Nat → Bool
  | none => false
  | some n => n != 0

/-- Python truthiness of an `Optional[str]` filter argument. -/
def truthyStr : Option String → Bool
  | none => false
  | some s => s != ""

/-- Python truthiness of an `Optional[datetime]` filter argument
(a datetime object is always truthy). -/
def truthyDate : Option PyDateTime → Bool
  | none => false
  | some _ => true

/-- `l₁` is a prefix of `l₂` (executable, on char lists). -/
def charsIsPref : List Char → List Char → Bool
  | [], _ => true
  | _ :: _, [] => false
  | a :: as, b :: bs => a == b && charsIsPref as bs

/-- `pat` occurs as a contiguous substring of `hay` (char lists). -/
def charsContains (hay pat : List Char) : Bool :=
  match hay with
  | [] => pat.isEmpty
  | _ :: t => charsIsPref pat hay || charsContains t pat

/-- ASCII lowercasing of a string, on its character data (the model of
Python's `.lower()` used by SQL `ilike`). -/
def lowerStr (s : String) : String :=
  ⟨s.data.map Char.toLower⟩

/-- SQL `column.ilike("%pat%")`: case-insensitive substring match. -/
def ilikeContains (text pat : String) : Bool :=
  charsContains (lowerStr text).data (lowerStr pat).data

/-- Concatenation of a list of strings (the repeated `notes += …` loops). -/
def strJoin : List String → String
  | [] => ""
  | s :: l => s ++ strJoin l

/-- One interviewer line of the notes document (integrations.py:177). -/
def interviewerLine (iv : Interviewer) : String :=
  "- " ++ iv.name ++ " (" ++ renderOptStr iv.position ++ ")\n"

/-- The pass/fail label derived from `Evaluation.passed`
(integrations.py:184). -/
def passedText (b : Bool) : String :=
  if b then "Пройшов" else "Не пройшов"

/-- The score line of one evaluation (integrations.py:185). -/
def scoreLine (fmt : ℚ → String) (ev : Evaluation) : String :=
  "- Загальна оцінка: " ++ fmt ev.total_score ++ " з " ++ fmt ev.minimal_rate
    ++ " необхідних\n"

/-- Both lines emitted per evaluation (integrations.py:183-186). -/
def evaluationLines (fmt : ℚ → String) (ev : Evaluation) : String :=
  scoreLine fmt ev ++ "- Результат: " ++ passedText ev.passed ++ "\n\n"

/-- One bulleted phrase line (integrations.py:196). -/
def phraseLine (p : PredefinedPhrase) : String :=
  "- " ++ p.text ++ "\n"

/-- The feedback section of the notes (integrations.py:189-196): free text,
then, when phrases are attached, the bulleted phrase list. -/
def feedbackSection : Option Feedback → List PredefinedPhrase → String
  | none, _ => ""
  | some fb, phs =>
    "**Відгук:**\n" ++ fb.text
      ++ (if phs.isEmpty then ""
          else "\n\n**Рекомендації:**\n" ++ strJoin (phs.map phraseLine))

/-- The Result Aggregator: the notes text assembled by
`sync_interview_to_peopleforce` (integrations.py:170-196).  The guard
`if evaluations:` of the source is equivalent to joining over the possibly
empty list.  `fmt` abstracts Python's float-to-string rendering. -/
def build_notes (fmt : ℚ → String) (form : InterviewForm) (ivs : List Interviewer)
    (evals : List Evaluation) (fb : Option Feedback)
    (phs : List PredefinedPhrase) : String :=
  "## Результати технічної співбесіди\n\n"
    ++ ("**Позиція:** " ++ form.position ++ "\n")
    ++ ("**Дата інтерв\x27ю:** " ++ strftimeYmdHM form.interview_date ++ "\n\n")
    ++ "**Інтерв\x27юери:**\n"
    ++ strJoin (ivs.map interviewerLine)
    ++ "\n**Оцінки:**\n"
    ++ strJoin (evals.map (evaluationLines fmt))
    ++ feedbackSection fb phs

/-- An HTTP request issued by the PeopleForce client; `jsonBody` is the
JSON object payload as key/value pairs. -/
structure HttpRequest where
  method : String
  url : String
  jsonBody : List (String × String)
deriving DecidableEq, Repr

/-- An `httpx` response: status code, raw `.text`, and the parsed `.json()`
payload (kept abstract as a string). -/
structure RemoteResponse where
  status_code : Nat
  text : String
  body : String
deriving DecidableEq, Repr

/-- The process environment of the sync flow: the configured base URL, the
HTTP transport (uninterpreted stub for the remote service), and Python's
float rendering used in f-strings. -/
structure SyncEnv where
  base_url : String
  transport : HttpRequest → RemoteResponse
  fmt : ℚ → String

/-- The PATCH request built by `PeopleForceClient.update_candidate_notes`
(integrations.py:57-61): JSON body `{"notes": notes}` against the
candidate's URL. -/
def notesPatchRequest (base_url candidate_id notes : String) : HttpRequest :=
  { method := "PATCH"
    url := base_url ++ "/api/v1/candidates/" ++ candidate_id
    jsonBody := [("notes", notes)] }

/-- `PeopleForceClient.update_candidate_notes` (integrations.py:55-69):
accepts 200/201/204, otherwise raises `HTTPException` carrying the remote
status code and response text.  Also returns the trace of issued
requests. -/
def update_candidate_notes (env : SyncEnv) (candidate_id notes : String) :
    Except PyExn String × List HttpRequest :=
  let req := notesPatchRequest env.base_url candidate_id notes
  let resp := env.transport req
  if resp.status_code == 200 || resp.status_code == 201 || resp.status_code == 204 then
    (.ok resp.body, [req])
  else
    (.error (.http resp.status_code
        ("Помилка оновлення нотаток кандидата в PeopleForce: " ++ resp.text)),
      [req])

/-- Outcome of a sync request: handler result, resulting database state,
and the trace of remote HTTP requests issued. -/
structure SyncResult where
  result : Except PyExn String
  db : DB
  requests : List HttpRequest

/-- The notes text assembled inside the sync handler for a loaded form
(integrations.py:165-196), factored out of the orchestration: the
evaluations and the at-most-one feedback row of the form are gathered and
handed to the Result Aggregator. -/
def syncNotes (env : SyncEnv) (db : DB) (interview_id : Nat) (form : InterviewForm) : String :=
  let evals := db.evaluations.filter (fun e => e.interview_form_id == interview_id)
  let fb := db.feedbacks.find? (fun f => f.interview_form_id == interview_id)
  let phs := match fb with
    | some f => phrasesOf db f.id
    | none => []
  build_notes env.fmt form (interviewersOf db form) evals fb phs

/-- `sync_interview_to_peopleforce` (integrations.py:157-215): load the
form (404 when absent), gather evaluations / feedback / phrases, build the
notes, push them via `update_candidate_notes`; any exception of the remote
call is caught by the broad `except Exception` and re-raised as a 500
carrying `str(e)`.  The handler never writes to the session, so the
database is returned as received on every path. -/
def sync_interview_to_peopleforce (env : SyncEnv) (db : DB) (interview_id : Nat) :
    SyncResult :=
  match db.forms.find? (fun f => f.id == interview_id) with
  | none => ⟨.error (.http 404 "Форму інтерв\x27ю не знайдено"), db, []⟩
  | some form =>
    match update_candidate_notes env form.candidate_id (syncNotes env db interview_id form) with
    | (.ok _, reqs) => ⟨.ok "Дані успішно синхронізовано з PeopleForce", db, reqs⟩
    | (.error e, reqs) =>
      ⟨.error (.http 500 ("Помилка при синхронізації даних з PeopleForce: " ++ strOfExn e)),
        db, reqs⟩

/-- Request body of `POST /api/interviews/` (interviews.py:19-20). -/
structure InterviewFormCreate where
  candidate_id : String
  candidate_name : String
  position : String
  interview_date : PyDateTime
  template_id : Nat
  interviewer_ids : List Nat
deriving DecidableEq, Repr

/-- Request body of the feedback endpoints (interviews.py:73-74). -/
structure FeedbackCreate where
  text : String
  predefined_phrase_ids : List Nat
deriving DecidableEq, Repr

/-- Replace a form row by its updated version (`db.commit()` after mutating
the loaded ORM object). -/
def updateForm (db : DB) (f' : InterviewForm) : DB :=
  { db with forms := db.forms.map (fun f => if f.id == f'.id then f' else f) }

/-- `existing.phrases = []` (interview_service.py:196): detach every phrase
currently pointing at feedback `fid` by nulling its foreign key. -/
def clearPhrases (phrases : List PredefinedPhrase) (fid : Nat) : List PredefinedPhrase :=
  phrases.map (fun p => if p.feedback_id == some fid then { p with feedback_id := none } else p)

/-- Point phrase `pid` at feedback `fid` (the FK write behind
`feedback.phrases.append(phrase)`); other rows are untouched. -/
def setPhraseOwner (pid fid : Nat) (p : PredefinedPhrase) : PredefinedPhrase :=
  if p.id == pid then { p with feedback_id := some fid } else p

/-- One loop iteration of the phrase-attachment loops
(interview_service.py:198-201 / 215-218, interviews.py:361-364):
look the id up, and only when a row exists append it to the collection
(which reassigns its `feedback_id`, detaching it from any other feedback). -/
def attachPhrase (phrases : List PredefinedPhrase) (pid fid : Nat) : List PredefinedPhrase :=
  if (phrases.find? (fun p => p.id == pid)).isSome then
    phrases.map (setPhraseOwner pid fid)
  else
    phrases

/-- The whole `for phrase_id in predefined_phrase_ids` loop. -/
def attachPhrases (phrases : List PredefinedPhrase) (ids : List Nat) (fid : Nat) :
    List PredefinedPhrase :=
  ids.foldl (fun phs pid => attachPhrase phs pid fid) phrases

/-- The interviewer-collection loop of form creation (interviews.py:122-126):
look every id up, raising 404 at the first missing one. -/
def lookupInterviewers (db : DB) : List Nat → Except PyExn (List Interviewer)
  | [] => .ok []
  | i :: rest =>
    match db.interviewers.find? (fun v => v.id == i) with
    | none => .error (.http 404 ("Інтерв\x27юера з ID " ++ toString i ++ " не знайдено"))
    | some iv =>
      match lookupInterviewers db rest with
      | .ok ivs => .ok (iv :: ivs)
      | .error e => .error e

/-- `create_interview_form` (interviews.py:112-144): template must exist,
every interviewer must exist; only then is the form row plus its
memberships committed.  On any 404 the session is torn down uncommitted,
leaving the database unchanged. -/
def Api.create_interview_form (db : DB) (form : InterviewFormCreate) :
    Except PyExn InterviewForm × DB :=
  match db.templates.find? (fun t => t.id == form.template_id) with
  | none => (.error (.http 404 "Шаблон не знайдено"), db)
  | some _ =>
    match lookupInterviewers db form.interviewer_ids with
    | .error e => (.error e, db)
    | .ok ivs =>
      let f : InterviewForm :=
        { id := db.nextId
          candidate_id := form.candidate_id
          candidate_name := form.candidate_name
          position := form.position
          interview_date := form.interview_date
          template_id := form.template_id
          interviewer_ids := ivs.map (fun v => v.id) }
      (.ok f, { db with forms := db.forms ++ [f], nextId := db.nextId + 1 })

/-- `add_interviewer_to_form` (interviews.py:227-245; the service method at
interview_service.py:249-266 is identical): 404 for a missing form or
interviewer, 400 Conflict when the interviewer is already a member. -/
def Api.add_interviewer_to_form (db : DB) (interview_id interviewer_id : Nat) :
    Except PyExn InterviewForm × DB :=
  match db.forms.find? (fun f => f.id == interview_id) with
  | none => (.error (.http 404 "Форму інтерв\x27ю не знайдено"), db)
  | some form =>
    match db.interviewers.find? (fun v => v.id == interviewer_id) with
    | none => (.error (.http 404 "Інтерв\x27юера не знайдено"), db)
    | some ivr =>
      if form.interviewer_ids.contains ivr.id then
        (.error (.http 400 "Інтерв\x27юер вже доданий до цієї форми"), db)
      else
        let form' := { form with interviewer_ids := form.interviewer_ids ++ [ivr.id] }
        (.ok form', updateForm db form')

/-- `remove_interviewer_from_form` (interviews.py:247-263): 404 for a
missing form or interviewer, 404 when the interviewer is not a member;
otherwise `list.remove` drops the first occurrence. -/
def Api.remove_interviewer_from_form (db : DB) (interview_id interviewer_id : Nat) :
    Except PyExn Bool × DB :=
  match db.forms.find? (fun f => f.id == interview_id) with
  | none => (.error (.http 404 "Форму інтерв\x27ю не знайдено"), db)
  | some form =>
    match db.interviewers.find? (fun v => v.id == interviewer_id) with
    | none => (.error (.http 404 "Інтерв\x27юера не знайдено"), db)
    | some ivr =>
      if form.interviewer_ids.contains ivr.id then
        let form' := { form with interviewer_ids := form.interviewer_ids.erase ivr.id }
        (.ok true, updateForm db form')
      else
        (.error (.http 404 "Інтерв\x27юер не є учасником цієї форми"), db)

/-- `POST /{interview_id}/feedback` (interviews.py:341-369): 404 for a
missing form, 400 Conflict when a feedback row already exists; otherwise a
new row is created and the existing phrase rows among
`predefined_phrase_ids` are attached (missing ids are silently skipped by
the `if phrase:` guard). -/
def Api.add_feedback (db : DB) (interview_id : Nat) (fb : FeedbackCreate) :
    Except PyExn Feedback × DB :=
  match db.forms.find? (fun f => f.id == interview_id) with
  | none => (.error (.http 404 "Форму інтерв\x27ю не знайдено"), db)
  | some _ =>
    match db.feedbacks.find? (fun f => f.interview_form_id == interview_id) with
    | some _ => (.error (.http 400 "Відгук для цієї форми вже існує"), db)
    | none =>
      let newFb : Feedback := { id := db.nextId, text := fb.text, interview_form_id := interview_id }
      let phs := attachPhrases db.phrases fb.predefined_phrase_ids newFb.id
      (.ok newFb,
        { db with feedbacks := db.feedbacks ++ [newFb], phrases := phs, nextId := db.nextId + 1 })

/-- `InterviewService.add_feedback` (interview_service.py:181-223): 404 for
a missing form; when a feedback row already exists it is updated in place
(text replaced, phrase collection cleared and re-attached) and returned;
otherwise a new row is created exactly as in the endpoint. -/
def InterviewService.add_feedback (db : DB) (interview_id : Nat) (fb : FeedbackCreate) :
    Except PyExn Feedback × DB :=
  match db.forms.find? (fun f => f.id == interview_id) with
  | none => (.error (.http 404 "Форму співбесіди не знайдено"), db)
  | some _ =>
    match db.feedbacks.find? (fun f => f.interview_form_id == interview_id) with
    | some existing =>
      let existing' := { existing with text := fb.text }
      let phs := attachPhrases (clearPhrases db.phrases existing.id)
        fb.predefined_phrase_ids existing.id
      (.ok existing',
        { db with
            feedbacks := db.feedbacks.map (fun f => if f.id == existing.id then existing' else f)
            phrases := phs })
    | none =>
      let newFb : Feedback := { id := db.nextId, text := fb.text, interview_form_id := interview_id }
      let phs := attachPhrases db.phrases fb.predefined_phrase_ids newFb.id
      (.ok newFb,
        { db with feedbacks := db.feedbacks ++ [newFb], phrases := phs, nextId := db.nextId + 1 })

/-- The question-lookup loop of `add_questions_to_template`
(template_service.py:83-87): 404 at the first missing id; NOTE the source
performs no membership check before appending. -/
def lookupQuestions (db : DB) : List Nat → Except PyExn (List Question)
  | [] => .ok []
  | i :: rest =>
    match db.questions.find? (fun q => q.id == i) with
    | none => .error (.http 404 ("Питання з ID " ++ toString i ++ " не знайдено"))
    | some q =>
      match lookupQuestions db rest with
      | .ok qs => .ok (q :: qs)
      | .error e => .error e

/-- Some id occurs twice in the list (used to model the primary-key check
on the pairs a flush is about to insert). -/
def hasDupNat : List Nat → Bool
  | [] => false
  | i :: rest => rest.contains i || hasDupNat rest

/-- `TemplateService.add_questions_to_template` (template_service.py:75-91):
template must exist and every question id must exist; each question is then
appended to the template's collection without any already-a-member check.
The in-service `db.commit()` (template_service.py:89) flushes one INSERT
into `template_questions` per appended pair; its composite primary key
(models.py:9-14) rejects a pair that is already present or repeated —
SQLAlchemy's list-backed collection does not de-duplicate appends — so that
commit raises `IntegrityError`, which escapes the handler uncaught (a plain
HTTP 500) with nothing persisted. -/
def TemplateService.add_questions_to_template (db : DB) (template_id : Nat)
    (question_ids : List Nat) : Except PyExn ApplicationTemplate × DB :=
  match db.templates.find? (fun t => t.id == template_id) with
  | none => (.error (.http 404 "Шаблон не знайдено"), db)
  | some t =>
    match lookupQuestions db question_ids with
    | .error e => (.error e, db)
    | .ok qs =>
      let appended := qs.map (fun q => q.id)
      if appended.any (fun i => t.question_ids.contains i) || hasDupNat appended then
        (.error .integrity, db)
      else
        let t' := { t with question_ids := t.question_ids ++ appended }
        (.ok t',
          { db with templates := db.templates.map (fun u => if u.id == t.id then t' else u) })

/-- `TemplateService.remove_question_from_template`
(template_service.py:93-109): 404 for a missing template or question, 404
when the question is not a member of the template; otherwise `list.remove`
drops the first occurrence. -/
def TemplateService.remove_question_from_template (db : DB) (template_id question_id : Nat) :
    Except PyExn Bool × DB :=
  match db.templates.find? (fun t => t.id == template_id) with
  | none => (.error (.http 404 "Шаблон не знайдено"), db)
  | some t =>
    match db.questions.find? (fun q => q.id == question_id) with
    | none => (.error (.http 404 ("Питання з ID " ++ toString question_id ++ " не знайдено")), db)
    | some q =>
      if t.question_ids.contains q.id then
        let t' := { t with question_ids := t.question_ids.erase q.id }
        (.ok true,
          { db with templates := db.templates.map (fun u => if u.id == t.id then t' else u) })
      else
        (.error (.http 404 ("Питання з ID " ++ toString question_id
          ++ " не знайдено в цьому шаблоні")), db)

/-- `InterviewService.get_scores` (interview_service.py:144-158): 404 for a
missing form; the optional interviewer filter is applied only when the
argument is truthy (`if interviewer_id:`), so `0` applies no filter. -/
def InterviewService.get_scores (db : DB) (interview_id : Nat)
    (interviewer_id : Option Nat) : Except PyExn (List Score) :=
  match db.forms.find? (fun f => f.id == interview_id) with
  | none => .error (.http 404 "Форму співбесіди не знайдено")
  | some _ =>
    let base := db.scores.filter (fun s => s.interview_form_id == interview_id)
    .ok (match interviewer_id with
      | some i => if i != 0 then base.filter (fun s => s.interviewer_id == i) else base
      | none => base)

/-- `QuestionService.get_questions` (question_service.py:11-39): every
filter is guarded by Python truthiness (`if unit_id:` etc.), so `0` and the
empty search string apply no filter; text search is case-insensitive
substring (`ilike`). -/
def QuestionService.get_questions (db : DB) (skip limit : Nat)
    (unit_id difficulty_id level_id group_id : Option Nat)
    (text_search : Option String) : List Question :=
  let q := db.questions
  let q : List Question := match unit_id with
    | some u => if u != 0 then q.filter (fun x => x.unit_id == some u) else q
    | none => q
  let q : List Question := match difficulty_id with
    | some u => if u != 0 then q.filter (fun x => x.difficulty_id == some u) else q
    | none => q
  let q : List Question := match level_id with
    | some u => if u != 0 then q.filter (fun x => x.level_id == some u) else q
    | none => q
  let q : List Question := match group_id with
    | some u => if u != 0 then q.filter (fun x => x.group_id == some u) else q
    | none => q
  let q : List Question := match text_search with
    | some ts => if ts != "" then q.filter (fun x => ilikeContains x.text ts) else q
    | none => q
  (q.drop skip).take limit

/-- `InterviewService.get_interviews` (interview_service.py:15-40): the
candidate and position filters are guarded by string truthiness, so the
empty string applies no filter; date bounds are inclusive. -/
def InterviewService.get_interviews (db : DB) (skip limit : Nat)
    (candidate_id position : Option String)
    (start_date end_date : Option PyDateTime) : List InterviewForm :=
  let q := db.forms
  let q : List InterviewForm := match candidate_id with
    | some c => if c != "" then q.filter (fun f => f.candidate_id == c) else q
    | none => q
  let q : List InterviewForm := match position with
    | some p => if p != "" then q.filter (fun f => ilikeContains f.position p) else q
    | none => q
  let q : List InterviewForm := match start_date with
    | some d => q.filter (fun f => PyDateTime.le d f.interview_date)
    | none => q
  let q : List InterviewForm := match end_date with
    | some d => q.filter (fun f => PyDateTime.le f.interview_date d)
    | none => q
  (q.drop skip).take limit

/-- `s` contains the given strings, in order, as (possibly overlapping-free)
substrings: the spec's substring-order assertion for the notes document. -/
def containsInOrder : String → List String → Prop
  | _, [] => True
  | s, p :: ps => ∃ pre rest, s = pre ++ p ++ rest ∧ containsInOrder rest ps

/- Concrete fixtures used by witnesses and counterexamples. -/

/-- A question row fixture. -/
def fixQuestion (i : Nat) : Question :=
  { id := i, text := "What is a closure?", weight := 1, docs_reference := none, priority := 1
    unit_id := none, difficulty_id := none, level_id := none, group_id := none }

/-- A template fixture owning question 1. -/
def fixTemplate : ApplicationTemplate :=
  { id := 1, name := "Backend", description := none, position := "Engineer", question_ids := [1] }

/-- An interviewer fixture. -/
def fixInterviewer (i : Nat) : Interviewer :=
  { id := i, name := "Jane Doe", email := "jane@example.com", position := some "Senior Engineer" }

/-- An interview-form fixture. -/
def fixForm (i : Nat) (ivs : List Nat) : InterviewForm :=
  { id := i, candidate_id := "cand-9", candidate_name := "John Smith", position := "Engineer"
    interview_date := ⟨2024, 5, 6, 10, 30⟩, template_id := 1, interviewer_ids := ivs }

/-- A predefined-phrase fixture. -/
def fixPhrase (i : Nat) (fid : Option Nat) : PredefinedPhrase :=
  { id := i, text := "Clear communicator", category := none, feedback_id := fid }

/-- A transport stub whose remote always answers 502 (an upstream error
that is not the sync handler's own 500). -/
def envFail : SyncEnv :=
  { base_url := "http://pf", transport := fun _ => ⟨502, "bad gateway", ""⟩
    fmt := fun q => toString q }

/-- Database with one interview form and nothing else. -/
def dbOneForm : DB :=
  { templates := [], questions := [], interviewers := [], forms := [fixForm 1 []]
    scores := [], evaluations := [], feedbacks := [], phrases := [], nextId := 10 }

/-- Empty database. -/
def dbEmpty : DB :=
  { templates := [], questions := [], interviewers := [], forms := []
    scores := [], evaluations := [], feedbacks := [], phrases := [], nextId := 1 }

/-- Database for the form-creation witness: template 1 and interviewer 1
exist, interviewer 99 does not. -/
def dbCreate : DB :=
  { templates := [fixTemplate], questions := [], interviewers := [fixInterviewer 1], forms := []
    scores := [], evaluations := [], feedbacks := [], phrases := [], nextId := 10 }

/-- Database for the duplicate-feedback witness: form 1 already has
feedback row 5; phrase 10 is unattached, phrase 11 attached to feedback 5. -/
def dbDupFb : DB :=
  { templates := [], questions := [], interviewers := [], forms := [fixForm 1 []]
    scores := [], evaluations := [], feedbacks := [⟨5, "old text", 1⟩]
    phrases := [fixPhrase 10 none, fixPhrase 11 (some 5)], nextId := 20 }

/-- Database for the membership-relation claims: question 1 is already a
member of template 1, question 2 exists outside it; interviewer 1 is a
member of form 1, interviewer 2 exists outside it. -/
def dbMember : DB :=
  { templates := [fixTemplate], questions := [fixQuestion 1, fixQuestion 2]
    interviewers := [fixInterviewer 1, fixInterviewer 2], forms := [fixForm 1 [1]]
    scores := [], evaluations := [], feedbacks := [], phrases := [], nextId := 30 }

/-- Database for the phrase-reattachment claims: feedback 1 on form 1 and
feedback 2 on form 2; phrase 10 attached to feedback 1. -/
def dbTwoFb : DB :=
  { templates := [], questions := [], interviewers := [], forms := [fixForm 1 [], fixForm 2 []]
    scores := [], evaluations := [], feedbacks := [⟨1, "fb one", 1⟩, ⟨2, "fb two", 2⟩]
    phrases := [fixPhrase 10 (some 1)], nextId := 40 }

/-- Database for the skipped-phrase-ids witness, create path: form 1 with
no feedback; phrase 10 exists, id 99 references nothing. -/
def dbSkipCreate : DB :=
  { templates := [], questions := [], interviewers := [], forms := [fixForm 1 []]
    scores := [], evaluations := [], feedbacks := [], phrases := [fixPhrase 10 none], nextId := 50 }

/-- Database for the skipped-phrase-ids witness, update path: form 2 with
feedback row 7; phrases 10 (attached to 7) and 11 (unattached) exist, id 99
references nothing. -/
def dbSkipUpdate : DB :=
  { templates := [], questions := [], interviewers := [], forms := [fixForm 2 []]
    scores := [], evaluations := [], feedbacks := [⟨7, "old", 2⟩]
    phrases := [fixPhrase 10 (some 7), fixPhrase 11 none], nextId := 60 }

/-- Evaluation fixture for the notes witness. -/
def fixEval : Evaluation :=
  { id := 1, total_score := 17 / 2, passed := true, minimal_rate := 7, interview_form_id := 1 }

/-- Creation request referencing template 1 and the nonexistent
interviewer 99. -/
def createReqBadIvr : InterviewFormCreate :=
  { candidate_id := "cand-9", candidate_name := "John Smith", position := "Engineer"
    interview_date := ⟨2024, 5, 6, 10, 30⟩, template_id := 1, interviewer_ids := [99] }

/-- Creation request referencing template 1 and existing interviewer 1. -/
def createReqOk : InterviewFormCreate :=
  { candidate_id := "cand-9", candidate_name := "John Smith", position := "Engineer"
    interview_date := ⟨2024, 5, 6, 10, 30⟩, template_id := 1, interviewer_ids := [1] }

/-- Feedback submission attaching only phrase 10. -/
def fbDataOne : FeedbackCreate := { text := "new text", predefined_phrase_ids := [10] }

/-- Feedback submission attaching phrase 10 and the nonexistent id 99. -/
def fbDataMiss : FeedbackCreate := { text := "txt", predefined_phrase_ids := [10, 99] }

/-- Feedback row fixture for the notes witness. -/
def fixFeedback : Feedback := { id := 9, text := "Strong candidate", interview_form_id := 1 }

/-- C9: a falsy filter value is treated exactly as an absent filter:
`get_scores` with `interviewer_id=0` filters nothing, `get_questions` with
zero tag ids or an empty search string filters nothing, and interview
listing with empty `candidate_id`/`position` filters nothing. -/
theorem falsy_filter_values_apply_no_filter :
    (∀ db interview_id,
      InterviewService.get_scores db interview_id (some 0) =
        InterviewService.get_scores db interview_id none) ∧
    (∀ db skip lim,
      QuestionService.get_questions db skip lim (some 0) (some 0) (some 0) (some 0) (some "") =
        QuestionService.get_questions db skip lim none none none none none) ∧
    (∀ db skip lim sd ed,
      InterviewService.get_interviews db skip lim (some "") (some "") sd ed =
        InterviewService.get_interviews db skip lim none none sd ed) :=
  ⟨fun _ _ => rfl, fun _ _ _ => rfl, fun _ _ _ _ _ => rfl⟩

/-- C7: `update_candidate_notes` issues exactly one PATCH request whose
JSON body is `{"notes": text}`; it returns the remote body on status
200/201/204 and otherwise raises an upstream error carrying the remote's
status code and response text. -/
theorem update_candidate_notes_contract (env : SyncEnv) (candidate_id notes : String) :
    (notesPatchRequest env.base_url candidate_id notes).method = "PATCH" ∧
    (notesPatchRequest env.base_url candidate_id notes).jsonBody = [("notes", notes)] ∧
    (update_candidate_notes env candidate_id notes).2 =
      [notesPatchRequest env.base_url candidate_id notes] ∧
    (∀ resp, env.transport (notesPatchRequest env.base_url candidate_id notes) = resp →
      ((resp.status_code = 200 ∨ resp.status_code = 201 ∨ resp.status_code = 204) →
        (update_candidate_notes env candidate_id notes).1 = .ok resp.body) ∧
      (resp.status_code ≠ 200 → resp.status_code ≠ 201 → resp.status_code ≠ 204 →
        (update_candidate_notes env candidate_id notes).1 =
          .error (.http resp.status_code
            ("Помилка оновлення нотаток кандидата в PeopleForce: " ++ resp.text)))) := by
  refine ⟨rfl, rfl, ?_, ?_⟩
  · simp only [update_candidate_notes]
    split <;> rfl
  · intro resp hresp
    subst hresp
    constructor
    · rintro (h | h | h) <;> simp [update_candidate_notes, h]
    · intro h1 h2 h3
      simp [update_candidate_notes, h1, h2, h3]

/-- Witness for C7 at a concrete failing remote (status 502). -/
theorem update_candidate_notes_contract_witness :
    (update_candidate_notes envFail "cand-9" "some notes").1 =
      .error (.http 502 ("Помилка оновлення нотаток кандидата в PeopleForce: " ++ "bad gateway")) :=
  ((update_candidate_notes_contract envFail "cand-9" "some notes").2.2.2
    ⟨502, "bad gateway", ""⟩ rfl).2 (by decide) (by decide) (by decide)

/-- C8: when no form with the given id exists, sync fails with 404, issues
no remote HTTP request, leaves the database unchanged, and its outcome does
not depend on the remote environment at all (so neither aggregation nor any
remote interaction influenced it). -/
theorem sync_missing_form_404_no_remote_call (env : SyncEnv) (db : DB) (interview_id : Nat)
    (h : db.forms.find? (fun f => f.id == interview_id) = none) :
    (sync_interview_to_peopleforce env db interview_id).result =
        .error (.http 404 "Форму інтерв\x27ю не знайдено") ∧
    (sync_interview_to_peopleforce env db interview_id).requests = [] ∧
    (sync_interview_to_peopleforce env db interview_id).db = db ∧
    ∀ env' : SyncEnv, sync_interview_to_peopleforce env' db interview_id =
      sync_interview_to_peopleforce env db interview_id := by
  refine ⟨?_, ?_, ?_, fun env' => ?_⟩ <;> simp [sync_interview_to_peopleforce, h]

/-- Witness for C8 on the empty database. -/
theorem sync_missing_form_404_no_remote_call_witness :
    dbEmpty.forms.find? (fun f => f.id == 1) = none ∧
    (sync_interview_to_peopleforce envFail dbEmpty 1).result =
      .error (.http 404 "Форму інтерв\x27ю не знайдено") :=
  ⟨rfl, (sync_missing_form_404_no_remote_call envFail dbEmpty 1 rfl).1⟩

/-- C2: the sync orchestration never persists any local state change
(the database comes back unchanged on every path), and when the remote
notes update fails with any exception, the failure is re-wrapped uniformly
as HTTP 500 carrying `str(e)` of the underlying cause instead of the
cause's own status code. -/
theorem sync_remote_failure_wrapped_500_no_persist (env : SyncEnv) (db : DB)
    (interview_id : Nat) :
    (sync_interview_to_peopleforce env db interview_id).db = db ∧
    (∀ form, db.forms.find? (fun f => f.id == interview_id) = some form →
      ∀ e reqs,
        update_candidate_notes env form.candidate_id (syncNotes env db interview_id form) =
          (.error e, reqs) →
        (sync_interview_to_peopleforce env db interview_id).result =
          .error (.http 500 ("Помилка при синхронізації даних з PeopleForce: " ++ strOfExn e))) := by
  constructor
  · rcases hf : db.forms.find? (fun f => f.id == interview_id) with _ | form
    · simp [sync_interview_to_peopleforce, hf]
    · rcases hu : update_candidate_notes env form.candidate_id
        (syncNotes env db interview_id form) with ⟨r, reqs⟩
      cases r <;> simp [sync_interview_to_peopleforce, hf, hu]
  · intro form hf e reqs hu
    simp [sync_interview_to_peopleforce, hf, hu]

/-- Witness for C2: the remote answers 502, the orchestration reports 500
with the cause attached, on a database holding one form. -/
theorem sync_remote_failure_wrapped_500_no_persist_witness :
    dbOneForm.forms.find? (fun f => f.id == 1) = some (fixForm 1 []) ∧
    (sync_interview_to_peopleforce envFail dbOneForm 1).db = dbOneForm ∧
    (sync_interview_to_peopleforce envFail dbOneForm 1).result =
      .error (.http 500 ("Помилка при синхронізації даних з PeopleForce: " ++
        strOfExn (.http 502 ("Помилка оновлення нотаток кандидата в PeopleForce: "
          ++ "bad gateway")))) :=
  ⟨rfl, (sync_remote_failure_wrapped_500_no_persist envFail dbOneForm 1).1,
    (sync_remote_failure_wrapped_500_no_persist envFail dbOneForm 1).2 (fixForm 1 []) rfl
      (.http 502 ("Помилка оновлення нотаток кандидата в PeopleForce: " ++ "bad gateway"))
      [notesPatchRequest "http://pf" "cand-9" (syncNotes envFail dbOneForm 1 (fixForm 1 []))] rfl⟩

/-- The interviewer-lookup loop succeeds when every id references an
existing row. -/
theorem lookupInterviewers_ok_of (db : DB) (ids : List Nat)
    (h : ∀ i ∈ ids, ∃ v ∈ db.interviewers, v.id = i) :
    ∃ ivs, lookupInterviewers db ids = .ok ivs := by
  induction ids with
  | nil => exact ⟨[], rfl⟩
  | cons i rest ih =>
    obtain ⟨v, hv, hvi⟩ := h i (by simp)
    have hs : (db.interviewers.find? (fun w => w.id == i)).isSome :=
      List.find?_isSome.mpr ⟨v, hv, by simp [hvi]⟩
    obtain ⟨iv, hiv⟩ := Option.isSome_iff_exists.mp hs
    obtain ⟨ivs, hr⟩ := ih (fun j hj => h j (List.mem_cons_of_mem _ hj))
    refine ⟨iv :: ivs, ?_⟩
    simp [lookupInterviewers, hiv, hr]

/-- When the interviewer-lookup loop succeeds, every id referenced an
existing row. -/
theorem lookupInterviewers_mem_of_ok (db : DB) (ids : List Nat) (ivs : List Interviewer)
    (h : lookupInterviewers db ids = .ok ivs) :
    ∀ i ∈ ids, ∃ v ∈ db.interviewers, v.id = i := by
  induction ids generalizing ivs with
  | nil => simp
  | cons i rest ih =>
    rcases hf : db.interviewers.find? (fun w => w.id == i) with _ | iv
    · simp [lookupInterviewers, hf] at h
    · rcases hr : lookupInterviewers db rest with e | ivs'
      · simp [lookupInterviewers, hf, hr] at h
      · intro j hj
        rcases List.mem_cons.mp hj with hj | hj
        · subst hj
          refine ⟨iv, List.mem_of_find?_eq_some hf, ?_⟩
          have := List.find?_some hf
          simpa using this
        · exact ih ivs' hr j hj

/-- The interviewer-lookup loop only ever fails with a 404. -/
theorem lookupInterviewers_error_404 (db : DB) (ids : List Nat) (e : PyExn)
    (h : lookupInterviewers db ids = .error e) : ∃ d, e = .http 404 d := by
  induction ids with
  | nil => simp [lookupInterviewers] at h
  | cons i rest ih =>
    rcases hf : db.interviewers.find? (fun w => w.id == i) with _ | iv
    · simp [lookupInterviewers, hf] at h
      exact ⟨_, h.symm⟩
    · rcases hr : lookupInterviewers db rest with e' | ivs'
      · simp [lookupInterviewers, hf, hr] at h
        subst h
        exact ih hr
      · simp [lookupInterviewers, hf, hr] at h

/-- C3: interview-form creation succeeds iff the template and every
interviewer id reference existing rows; every failure is a 404 raised
before anything is persisted, leaving the database unchanged. -/
theorem create_interview_form_success_iff (db : DB) (form : InterviewFormCreate) :
    (((∃ t ∈ db.templates, t.id = form.template_id) ∧
        ∀ i ∈ form.interviewer_ids, ∃ v ∈ db.interviewers, v.id = i) ↔
      ∃ f, (Api.create_interview_form db form).1 = .ok f) ∧
    (∀ e, (Api.create_interview_form db form).1 = .error e →
      (∃ d, e = .http 404 d) ∧ (Api.create_interview_form db form).2 = db) := by
  constructor
  · constructor
    · rintro ⟨⟨t, ht, hti⟩, hivs⟩
      have hts : (db.templates.find? (fun u => u.id == form.template_id)).isSome :=
        List.find?_isSome.mpr ⟨t, ht, by simp [hti]⟩
      obtain ⟨t0, ht0⟩ := Option.isSome_iff_exists.mp hts
      obtain ⟨ivs, hivs'⟩ := lookupInterviewers_ok_of db _ hivs
      simp only [Api.create_interview_form, ht0, hivs']
      exact ⟨_, rfl⟩
    · rintro ⟨f, hf⟩
      rcases ht : db.templates.find? (fun u => u.id == form.template_id) with _ | t
      · simp [Api.create_interview_form, ht] at hf
      · rcases hl : lookupInterviewers db form.interviewer_ids with e | ivs
        · simp [Api.create_interview_form, ht, hl] at hf
        · refine ⟨⟨t, List.mem_of_find?_eq_some ht, ?_⟩,
            lookupInterviewers_mem_of_ok db _ ivs hl⟩
          have := List.find?_some ht
          simpa using this
  · intro e he
    rcases ht : db.templates.find? (fun u => u.id == form.template_id) with _ | t
    · refine ⟨?_, by simp [Api.create_interview_form, ht]⟩
      simp [Api.create_interview_form, ht] at he
      exact ⟨_, he.symm⟩
    · rcases hl : lookupInterviewers db form.interviewer_ids with e' | ivs
      · refine ⟨?_, by simp [Api.create_interview_form, ht, hl]⟩
        simp [Api.create_interview_form, ht, hl] at he
        subst he
        exact lookupInterviewers_error_404 db _ _ hl
      · simp [Api.create_interview_form, ht, hl] at he

/-- Witness for C3: creation referencing the nonexistent interviewer 99
fails with 404 and leaves the database unchanged; with existing references
it succeeds. -/
theorem create_interview_form_success_iff_witness :
    ((Api.create_interview_form dbCreate createReqBadIvr).1 =
        .error (.http 404 ("Інтерв\x27юера з ID " ++ toString 99 ++ " не знайдено"))) ∧
    ((∃ d, (PyExn.http 404 ("Інтерв\x27юера з ID " ++ toString 99 ++ " не знайдено")) = .http 404 d) ∧
      (Api.create_interview_form dbCreate createReqBadIvr).2 = dbCreate) ∧
    ∃ f, (Api.create_interview_form dbCreate createReqOk).1 = .ok f :=
  ⟨rfl,
    (create_interview_form_success_iff dbCreate createReqBadIvr).2 _ rfl,
    (create_interview_form_success_iff dbCreate createReqOk).1.mp
      ⟨⟨fixTemplate, by simp [dbCreate], by simp [fixTemplate, createReqOk]⟩,
        by
          intro i hi
          simp [createReqOk] at hi
          subst hi
          exact ⟨fixInterviewer 1, by simp [dbCreate], by simp [fixInterviewer]⟩⟩⟩

/-- C5 counterexample: question 1 is already a member of template 1, yet
`add_questions_to_template` does not fail with Conflict (400) — the service
logic performs no membership check, and the failure that does occur is the
join table's primary-key `IntegrityError` raised by the in-service commit,
escaping the handler as a plain 500 with the database unchanged. -/
theorem template_add_existing_member_no_conflict_cex :
    fixTemplate.question_ids.contains 1 = true ∧
    TemplateService.add_questions_to_template dbMember 1 [1] =
      (.error .integrity, dbMember) :=
  ⟨rfl, rfl⟩

/-- A duplicate-free id list has no duplicate, in the executable sense used
by the commit model. -/
theorem hasDupNat_eq_false_of_nodup (l : List Nat) (h : l.Nodup) :
    hasDupNat l = false := by
  induction l with
  | nil => rfl
  | cons i rest ih =>
    have hmem : i ∉ rest := (List.nodup_cons.mp h).1
    have hrest : rest.Nodup := (List.nodup_cons.mp h).2
    simp [hasDupNat, hmem, ih hrest]

/-- C5 amended: the interviewer-form relation rejects duplicate adds with
Conflict and removals of non-members with NotFound, and the
template-question relation rejects removals of non-members with NotFound;
but the template-question add performs no membership check and never
raises Conflict — with all referenced questions existing, it succeeds and
appends when none is already a member (nor repeated), while a request
naming an already-member question dies at the in-service commit with the
primary key's `IntegrityError` (a plain 500), nothing persisted. -/
theorem membership_relations_amended (db : DB) :
    (∀ iid vid form ivr,
      db.forms.find? (fun f => f.id == iid) = some form →
      db.interviewers.find? (fun v => v.id == vid) = some ivr →
      form.interviewer_ids.contains ivr.id = true →
      Api.add_interviewer_to_form db iid vid =
        (.error (.http 400 "Інтерв\x27юер вже доданий до цієї форми"), db)) ∧
    (∀ iid vid form ivr,
      db.forms.find? (fun f => f.id == iid) = some form →
      db.interviewers.find? (fun v => v.id == vid) = some ivr →
      form.interviewer_ids.contains ivr.id = false →
      Api.remove_interviewer_from_form db iid vid =
        (.error (.http 404 "Інтерв\x27юер не є учасником цієї форми"), db)) ∧
    (∀ tid qid t q,
      db.templates.find? (fun u => u.id == tid) = some t →
      db.questions.find? (fun u => u.id == qid) = some q →
      t.question_ids.contains q.id = false →
      TemplateService.remove_question_from_template db tid qid =
        (.error (.http 404 ("Питання з ID " ++ toString qid
          ++ " не знайдено в цьому шаблоні")), db)) ∧
    (∀ tid qids t qs,
      db.templates.find? (fun u => u.id == tid) = some t →
      lookupQuestions db qids = .ok qs →
      ((∀ i ∈ qs.map (fun q => q.id), i ∉ t.question_ids) →
        (qs.map (fun q => q.id)).Nodup →
        (TemplateService.add_questions_to_template db tid qids).1 =
          .ok { t with question_ids := t.question_ids ++ qs.map (fun q => q.id) }) ∧
      (∀ q ∈ qs, q.id ∈ t.question_ids →
        TemplateService.add_questions_to_template db tid qids =
          (.error .integrity, db))) := by
  refine ⟨?_, ?_, ?_, ?_⟩
  · intro iid vid form ivr hf hv hc
    have hc' : ivr.id ∈ form.interviewer_ids := by simpa using hc
    simp [Api.add_interviewer_to_form, hf, hv, hc']
  · intro iid vid form ivr hf hv hc
    have hc' : ivr.id ∉ form.interviewer_ids := by simpa using hc
    simp [Api.remove_interviewer_from_form, hf, hv, hc']
  · intro tid qid t q ht hq hc
    have hc' : q.id ∉ t.question_ids := by simpa using hc
    simp [TemplateService.remove_question_from_template, ht, hq, hc']
  · intro tid qids t qs ht hl
    constructor
    · intro hnew hdistinct
      have h2 : hasDupNat (qs.map (fun q => q.id)) = false :=
        hasDupNat_eq_false_of_nodup _ hdistinct
      have hno : ¬ ∃ a ∈ qs, a.id ∈ t.question_ids := by
        rintro ⟨a, ha, hmem⟩
        exact hnew a.id (List.mem_map_of_mem _ ha) hmem
      simp [TemplateService.add_questions_to_template, ht, hl, h2, hno]
    · intro q hq hmem
      simp only [TemplateService.add_questions_to_template, ht, hl]
      have hc : ((qs.map (fun q => q.id)).any (fun i => t.question_ids.contains i)
          || hasDupNat (qs.map (fun q => q.id))) = true := by
        refine Bool.or_eq_true_iff.mpr (Or.inl ?_)
        simp only [List.any_eq_true]
        exact ⟨q.id, List.mem_map_of_mem _ hq, by simpa using hmem⟩
      rw [if_pos hc]

/-- Witness for the amended C5 on a concrete database: duplicate
interviewer add is a 400, non-member removals are 404s, a fresh
template-question add succeeds, and an already-member add dies at commit
with `IntegrityError`, not Conflict. -/
theorem membership_relations_amended_witness :
    Api.add_interviewer_to_form dbMember 1 1 =
      (.error (.http 400 "Інтерв\x27юер вже доданий до цієї форми"), dbMember) ∧
    Api.remove_interviewer_from_form dbMember 1 2 =
      (.error (.http 404 "Інтерв\x27юер не є учасником цієї форми"), dbMember) ∧
    TemplateService.remove_question_from_template dbMember 1 2 =
      (.error (.http 404 ("Питання з ID " ++ toString 2
        ++ " не знайдено в цьому шаблоні")), dbMember) ∧
    (TemplateService.add_questions_to_template dbMember 1 [2]).1 =
      .ok { fixTemplate with
        question_ids := fixTemplate.question_ids ++ [fixQuestion 2].map (fun q => q.id) } ∧
    TemplateService.add_questions_to_template dbMember 1 [1] =
      (.error .integrity, dbMember) :=
  ⟨(membership_relations_amended dbMember).1 1 1 (fixForm 1 [1]) (fixInterviewer 1) rfl rfl rfl,
    (membership_relations_amended dbMember).2.1 1 2 (fixForm 1 [1]) (fixInterviewer 2) rfl rfl rfl,
    (membership_relations_amended dbMember).2.2.1 1 2 fixTemplate (fixQuestion 2) rfl rfl rfl,
    ((membership_relations_amended dbMember).2.2.2 1 [2] fixTemplate [fixQuestion 2] rfl rfl).1
      (by decide) (by decide),
    ((membership_relations_amended dbMember).2.2.2 1 [1] fixTemplate [fixQuestion 1] rfl rfl).2
      (fixQuestion 1) (by decide) (by decide)⟩

/-- Appending one phrase id acts as a pointwise foreign-key rewrite: when
the id exists this is literal, and when it does not the rewrite touches no
row anyway. -/
theorem attachPhrase_eq_map (phrases : List PredefinedPhrase) (pid fid : Nat) :
    attachPhrase phrases pid fid = phrases.map (setPhraseOwner pid fid) := by
  by_cases h : (phrases.find? (fun p => p.id == pid)).isSome = true
  · simp [attachPhrase, h]
  · have hnone : phrases.find? (fun p => p.id == pid) = none := by
      rcases hf : phrases.find? (fun p => p.id == pid) with _ | v
      · exact hf
      · rw [hf] at h
        simp at h
    have hmap : phrases.map (setPhraseOwner pid fid) = phrases := by
      calc phrases.map (setPhraseOwner pid fid)
          = phrases.map id := by
            apply List.map_congr_left
            intro p hp
            have := List.find?_eq_none.mp hnone p hp
            simp [setPhraseOwner, this]
        _ = phrases := List.map_id _
    simp [attachPhrase, h, hmap]

/-- The whole attachment loop rewrites the foreign key of exactly the rows
whose id occurs in the requested list. -/
theorem attachPhrases_eq_map (ids : List Nat) (phrases : List PredefinedPhrase) (fid : Nat) :
    attachPhrases phrases ids fid =
      phrases.map (fun p =>
        if ids.contains p.id then { p with feedback_id := some fid } else p) := by
  induction ids generalizing phrases with
  | nil =>
    simp [attachPhrases]
  | cons pid rest ih =>
    have h1 : attachPhrases phrases (pid :: rest) fid =
        attachPhrases (attachPhrase phrases pid fid) rest fid := rfl
    rw [h1, ih, attachPhrase_eq_map, List.map_map]
    apply List.map_congr_left
    intro p _
    by_cases h : p.id = pid
    · by_cases h2 : rest.contains p.id = true <;>
        simp [Function.comp, setPhraseOwner, h, h2, List.contains_cons]
    · simp [Function.comp, setPhraseOwner, h, List.contains_cons]

/-- After clearing a feedback's phrase collection and re-attaching a list
of ids, the rows attached to that feedback are exactly the rows whose id
occurs in the list, in table order. -/
theorem attached_ids_after_clear_attach (phrases : List PredefinedPhrase) (ids : List Nat)
    (fid : Nat) :
    ((attachPhrases (clearPhrases phrases fid) ids fid).filter
        (fun p => p.feedback_id == some fid)).map (fun p => p.id) =
      (phrases.filter (fun p => ids.contains p.id)).map (fun p => p.id) := by
  rw [attachPhrases_eq_map, clearPhrases, List.map_map]
  induction phrases with
  | nil => simp
  | cons p ps ih =>
    by_cases h : p.id ∈ ids <;>
      by_cases h2 : p.feedback_id = some fid <;>
        (simp [Function.comp] at ih; simp [Function.comp, h, h2, ih])

/-- Attaching a list of ids to a feedback no existing row points at makes
the attached rows exactly those whose id occurs in the list. -/
theorem attached_ids_after_attach_fresh (phrases : List PredefinedPhrase) (ids : List Nat)
    (fid : Nat) (hfresh : ∀ p ∈ phrases, p.feedback_id ≠ some fid) :
    ((attachPhrases phrases ids fid).filter
        (fun p => p.feedback_id == some fid)).map (fun p => p.id) =
      (phrases.filter (fun p => ids.contains p.id)).map (fun p => p.id) := by
  rw [attachPhrases_eq_map]
  induction phrases with
  | nil => simp
  | cons p ps ih =>
    have hp := hfresh p (by simp)
    have hps := ih (fun q hq => hfresh q (List.mem_cons_of_mem _ hq))
    simp at hps
    by_cases h : p.id ∈ ids <;> simp [h, hp, hps]

/-- C4: when a form already has a feedback row, the direct endpoint fails
with Conflict 400 leaving the database unchanged, while the service-level
path updates the existing row in place — same id, new text, phrase set
replaced by exactly the requested existing phrases — without creating a
second row (row count unchanged). -/
theorem duplicate_feedback_conflict_vs_upsert (db : DB) (iid : Nat)
    (data : FeedbackCreate) (form : InterviewForm) (f0 : Feedback)
    (hform : db.forms.find? (fun f => f.id == iid) = some form)
    (hex : db.feedbacks.find? (fun f => f.interview_form_id == iid) = some f0) :
    Api.add_feedback db iid data = (.error (.http 400 "Відгук для цієї форми вже існує"), db) ∧
    (InterviewService.add_feedback db iid data).1 = .ok { f0 with text := data.text } ∧
    ((InterviewService.add_feedback db iid data).2).feedbacks.length = db.feedbacks.length ∧
    (phrasesOf (InterviewService.add_feedback db iid data).2 f0.id).map (fun p => p.id) =
      (db.phrases.filter (fun p => data.predefined_phrase_ids.contains p.id)).map
        (fun p => p.id) := by
  refine ⟨?_, ?_, ?_, ?_⟩
  · simp [Api.add_feedback, hform, hex]
  · simp [InterviewService.add_feedback, hform, hex]
  · simp [InterviewService.add_feedback, hform, hex]
  · simp only [InterviewService.add_feedback, hform, hex, phrasesOf]
    exact attached_ids_after_clear_attach db.phrases data.predefined_phrase_ids f0.id

/-- Witness for C4: form 1 already has feedback row 5; the endpoint
conflicts, the service rewrites row 5 with the new text and phrase 10. -/
theorem duplicate_feedback_conflict_vs_upsert_witness :
    Api.add_feedback dbDupFb 1 fbDataOne =
      (.error (.http 400 "Відгук для цієї форми вже існує"), dbDupFb) ∧
    (InterviewService.add_feedback dbDupFb 1 fbDataOne).1 =
      .ok { id := 5, text := "new text", interview_form_id := 1 } ∧
    ((InterviewService.add_feedback dbDupFb 1 fbDataOne).2).feedbacks.length =
      dbDupFb.feedbacks.length ∧
    (phrasesOf (InterviewService.add_feedback dbDupFb 1 fbDataOne).2 5).map (fun p => p.id) =
      (dbDupFb.phrases.filter
        (fun p => fbDataOne.predefined_phrase_ids.contains p.id)).map (fun p => p.id) :=
  duplicate_feedback_conflict_vs_upsert dbDupFb 1 fbDataOne (fixForm 1 [])
    ⟨5, "old text", 1⟩ rfl rfl

/-- C6 counterexample: phrase 10 is attached to feedback 1; submitting
feedback for form 2 with phrase 10 re-attaches the row to feedback 2 and
it is no longer attached to feedback 1 — the relation is not
many-to-many. -/
theorem phrase_reattach_detaches_cex :
    phrasesOf dbTwoFb 1 = [fixPhrase 10 (some 1)] ∧
    phrasesOf (InterviewService.add_feedback dbTwoFb 2 fbDataOne).2 2 =
      [fixPhrase 10 (some 2)] ∧
    phrasesOf (InterviewService.add_feedback dbTwoFb 2 fbDataOne).2 1 = [] := by
  refine ⟨rfl, rfl, rfl⟩

/-- Core of the amended C6: after clearing and re-attaching, every row
whose id was requested points at the target feedback (and such a row still
exists when it existed before) — ownership moves, it is not shared. -/
theorem attach_clear_sets_owner (phrases : List PredefinedPhrase) (ids : List Nat)
    (fid pid : Nat) (hmem : ids.contains pid = true) :
    (∀ p ∈ attachPhrases (clearPhrases phrases fid) ids fid,
      p.id = pid → p.feedback_id = some fid) ∧
    ((∃ p ∈ phrases, p.id = pid) →
      ∃ p ∈ attachPhrases (clearPhrases phrases fid) ids fid,
        p.id = pid ∧ p.feedback_id = some fid) := by
  have hmem' : pid ∈ ids := by simpa using hmem
  rw [attachPhrases_eq_map, clearPhrases, List.map_map]
  constructor
  · intro p hp hid
    obtain ⟨q, hq, hq2⟩ := List.mem_map.mp hp
    subst hq2
    by_cases hc : q.feedback_id = some fid <;> by_cases h : q.id ∈ ids <;>
      simp [Function.comp, hc, h] at hid ⊢ <;>
      exact absurd (show q.id ∈ ids by rw [hid]; exact hmem') h
  · rintro ⟨q, hq, hid⟩
    refine ⟨_, List.mem_map_of_mem _ hq, ?_⟩
    have h : q.id ∈ ids := by rw [hid]; exact hmem'
    by_cases hc : q.feedback_id = some fid <;> simp [Function.comp, hc, h, hid, hmem']

/-- C6 amended: the Feedback-PredefinedPhrase relation is one-to-many —
each phrase row points at no more than one feedback, and submitting
feedback that requests a phrase re-points that row at the submitting
feedback, detaching it from whichever feedback previously held it. -/
theorem phrase_attach_moves_ownership (db : DB) (iid : Nat) (data : FeedbackCreate)
    (form : InterviewForm) (f0 : Feedback) (pid : Nat)
    (hform : db.forms.find? (fun f => f.id == iid) = some form)
    (hex : db.feedbacks.find? (fun f => f.interview_form_id == iid) = some f0)
    (hmem : data.predefined_phrase_ids.contains pid = true) :
    (∀ p ∈ ((InterviewService.add_feedback db iid data).2).phrases,
      p.id = pid → p.feedback_id = some f0.id) ∧
    ((∃ p ∈ db.phrases, p.id = pid) →
      ∃ p ∈ ((InterviewService.add_feedback db iid data).2).phrases,
        p.id = pid ∧ p.feedback_id = some f0.id) := by
  simp only [InterviewService.add_feedback, hform, hex]
  exact attach_clear_sets_owner db.phrases data.predefined_phrase_ids f0.id pid hmem

/-- Witness for the amended C6: phrase 10, previously attached to feedback
1, ends up attached to feedback 2 after the submission for form 2. -/
theorem phrase_attach_moves_ownership_witness :
    fbDataOne.predefined_phrase_ids.contains 10 = true ∧
    ((∀ p ∈ ((InterviewService.add_feedback dbTwoFb 2 fbDataOne).2).phrases,
        p.id = 10 → p.feedback_id = some 2) ∧
      ((∃ p ∈ dbTwoFb.phrases, p.id = 10) →
        ∃ p ∈ ((InterviewService.add_feedback dbTwoFb 2 fbDataOne).2).phrases,
          p.id = 10 ∧ p.feedback_id = some 2)) :=
  ⟨rfl, phrase_attach_moves_ownership dbTwoFb 2 fbDataOne (fixForm 2 [])
    ⟨2, "fb two", 2⟩ 10 rfl rfl rfl⟩

/-- C10: a feedback submission whose phrase-id list references nonexistent
rows still succeeds on both entry points; the nonexistent ids are skipped
and the resulting feedback carries exactly the requested phrases that do
exist. -/
theorem feedback_missing_phrase_ids_skipped (db1 db2 : DB) (iid1 iid2 : Nat)
    (data : FeedbackCreate) (form1 form2 : InterviewForm) (f0 : Feedback)
    (h1 : db1.forms.find? (fun f => f.id == iid1) = some form1)
    (h1e : db1.feedbacks.find? (fun f => f.interview_form_id == iid1) = none)
    (h1f : ∀ p ∈ db1.phrases, p.feedback_id ≠ some db1.nextId)
    (_h1m : ∃ pid ∈ data.predefined_phrase_ids,
      db1.phrases.find? (fun p => p.id == pid) = none)
    (h2 : db2.forms.find? (fun f => f.id == iid2) = some form2)
    (h2e : db2.feedbacks.find? (fun f => f.interview_form_id == iid2) = some f0)
    (_h2m : ∃ pid ∈ data.predefined_phrase_ids,
      db2.phrases.find? (fun p => p.id == pid) = none) :
    (∃ fb db', Api.add_feedback db1 iid1 data = (.ok fb, db') ∧
      (phrasesOf db' fb.id).map (fun p => p.id) =
        (db1.phrases.filter
          (fun p => data.predefined_phrase_ids.contains p.id)).map (fun p => p.id)) ∧
    (∃ fb db', InterviewService.add_feedback db2 iid2 data = (.ok fb, db') ∧
      (phrasesOf db' fb.id).map (fun p => p.id) =
        (db2.phrases.filter
          (fun p => data.predefined_phrase_ids.contains p.id)).map (fun p => p.id)) := by
  constructor
  · simp only [Api.add_feedback, h1, h1e]
    refine ⟨_, _, rfl, ?_⟩
    simp only [phrasesOf]
    exact attached_ids_after_attach_fresh db1.phrases data.predefined_phrase_ids
      db1.nextId h1f
  · simp only [InterviewService.add_feedback, h2, h2e]
    refine ⟨_, _, rfl, ?_⟩
    simp only [phrasesOf]
    exact attached_ids_after_clear_attach db2.phrases data.predefined_phrase_ids f0.id

/-- Witness for C10: phrase id 99 exists in neither database; both entry
points succeed and attach only the existing phrase 10. -/
theorem feedback_missing_phrase_ids_skipped_witness :
    dbSkipCreate.phrases.find? (fun p => p.id == 99) = none ∧
    dbSkipUpdate.phrases.find? (fun p => p.id == 99) = none ∧
    ((∃ fb db', Api.add_feedback dbSkipCreate 1 fbDataMiss = (.ok fb, db') ∧
        (phrasesOf db' fb.id).map (fun p => p.id) =
          (dbSkipCreate.phrases.filter
            (fun p => fbDataMiss.predefined_phrase_ids.contains p.id)).map (fun p => p.id)) ∧
      (∃ fb db', InterviewService.add_feedback dbSkipUpdate 2 fbDataMiss = (.ok fb, db') ∧
        (phrasesOf db' fb.id).map (fun p => p.id) =
          (dbSkipUpdate.phrases.filter
            (fun p => fbDataMiss.predefined_phrase_ids.contains p.id)).map (fun p => p.id))) :=
  ⟨rfl, rfl,
    feedback_missing_phrase_ids_skipped dbSkipCreate dbSkipUpdate 1 2 fbDataMiss
      (fixForm 1 []) (fixForm 2 []) ⟨7, "old", 2⟩ rfl rfl (by decide) ⟨99, by decide, rfl⟩
      rfl rfl ⟨99, by decide, rfl⟩⟩

/-- A leading chunk of text before the parts does not disturb
substring-order containment. -/
theorem containsInOrder_prepend (t s : String) (ps : List String)
    (h : containsInOrder s ps) : containsInOrder (t ++ s) ps := by
  cases ps with
  | nil => trivial
  | cons p ps =>
    obtain ⟨pre, rest, hs, hc⟩ := h
    refine ⟨t ++ pre, rest, ?_, hc⟩
    rw [hs]
    simp [String.append_assoc]

/-- Consuming the head part at the very front of the text. -/
theorem containsInOrder_cons_head (p s : String) (ps : List String)
    (h : containsInOrder s ps) : containsInOrder (p ++ s) (p :: ps) :=
  ⟨"", s, by rw [String.empty_append], h⟩

/-- Substring-order containment composes over concatenation. -/
theorem containsInOrder_append (s1 s2 : String) (ps qs : List String)
    (h1 : containsInOrder s1 ps) (h2 : containsInOrder s2 qs) :
    containsInOrder (s1 ++ s2) (ps ++ qs) := by
  induction ps generalizing s1 with
  | nil => exact containsInOrder_prepend s1 s2 qs h2
  | cons p ps ih =>
    obtain ⟨pre, rest, hs, hc⟩ := h1
    refine ⟨pre, rest ++ s2, ?_, ih rest hc⟩
    rw [hs]
    simp [String.append_assoc]

/-- A joined list of strings contains its pieces in order. -/
theorem containsInOrder_self_join (parts : List String) :
    containsInOrder (strJoin parts) parts := by
  induction parts with
  | nil => trivial
  | cons p ps ih => exact containsInOrder_cons_head p (strJoin ps) ps ih

/-- Joining per-element blocks preserves per-element substring-order
containment. -/
theorem containsInOrder_join_blocks {α : Type} (l : List α) (f : α → String)
    (g : α → List String) (h : ∀ a ∈ l, containsInOrder (f a) (g a)) :
    containsInOrder (strJoin (l.map f)) ((l.map g).flatten) := by
  induction l with
  | nil => trivial
  | cons a l ih =>
    have hrec := ih (fun b hb => h b (List.mem_cons_of_mem _ hb))
    have := containsInOrder_append (f a) (strJoin (l.map f)) (g a) ((l.map g).flatten)
      (h a (by simp)) hrec
    simpa using this

/-- C1: for a form with interviewers, at least one evaluation and feedback
with phrases, the aggregated notes contain — in this order — the position,
the `YYYY-MM-DD HH:MM` date, one line per interviewer in membership order,
per evaluation a line with its total score and minimal rate followed by the
pass/fail label, the feedback text, and one bulleted line per attached
phrase in stored order. -/
theorem sync_notes_substring_order (fmt : ℚ → String) (form : InterviewForm)
    (ivs : List Interviewer) (evals : List Evaluation) (fb : Feedback)
    (phs : List PredefinedPhrase)
    (_hiv : ivs ≠ []) (_hev : evals ≠ []) (hph : phs ≠ []) :
    containsInOrder (build_notes fmt form ivs evals (some fb) phs)
      ([form.position, strftimeYmdHM form.interview_date]
        ++ ivs.map interviewerLine
        ++ (evals.map (fun e => [scoreLine fmt e, passedText e.passed])).flatten
        ++ fb.text :: phs.map phraseLine) := by
  unfold build_notes
  simp only [String.append_assoc, List.cons_append, List.nil_append, List.append_assoc]
  apply containsInOrder_prepend
  apply containsInOrder_prepend
  apply containsInOrder_cons_head
  apply containsInOrder_prepend
  apply containsInOrder_prepend
  apply containsInOrder_cons_head
  apply containsInOrder_prepend
  apply containsInOrder_prepend
  refine containsInOrder_append _ _ _ _ (containsInOrder_self_join _) ?_
  apply containsInOrder_prepend
  refine containsInOrder_append _ _ _ _ ?_ ?_
  · apply containsInOrder_join_blocks
    intro e _
    unfold evaluationLines
    simp only [String.append_assoc]
    apply containsInOrder_cons_head
    apply containsInOrder_prepend
    exact containsInOrder_cons_head _ _ [] trivial
  · unfold feedbackSection
    have hne : phs.isEmpty = false := by
      cases phs with
      | nil => exact absurd rfl hph
      | cons a l => rfl
    simp only [hne, Bool.false_eq_true, if_false, String.append_assoc]
    apply containsInOrder_prepend
    apply containsInOrder_cons_head
    apply containsInOrder_prepend
    exact containsInOrder_self_join _

/-- Witness for C1 on one interviewer, one passed evaluation, feedback
with one phrase. -/
theorem sync_notes_substring_order_witness :
    ([fixInterviewer 1] ≠ ([] : List Interviewer)) ∧
    ([fixEval] ≠ ([] : List Evaluation)) ∧
    ([fixPhrase 10 none] ≠ ([] : List PredefinedPhrase)) ∧
    containsInOrder
      (build_notes (fun _ => "8.5") (fixForm 1 [1]) [fixInterviewer 1] [fixEval]
        (some fixFeedback) [fixPhrase 10 none])
      ([(fixForm 1 [1]).position, strftimeYmdHM (fixForm 1 [1]).interview_date]
        ++ [fixInterviewer 1].map interviewerLine
        ++ ([fixEval].map (fun e => [scoreLine (fun _ => "8.5") e, passedText e.passed])).flatten
        ++ fixFeedback.text :: [fixPhrase 10 none].map phraseLine) :=
  ⟨by simp, by simp, by simp,
    sync_notes_substring_order (fun _ => "8.5") (fixForm 1 [1]) [fixInterviewer 1] [fixEval]
      fixFeedback [fixPhrase 10 none] (by simp) (by simp) (by simp)⟩
